import Mathlib

/-!
Verification development for the goldilocks PostgreSQL client library.

The Go source is shallowly embedded: Go byte slices become `Option (List Nat)`
(`none` models a nil slice, which the library and the wire driver use as the
SQL NULL marker; `some l` models a non-nil slice with contents `l`), machine
integers become `Int`/`Nat` with explicit wrap-around arithmetic, and floats
are represented by their IEEE-754 bit patterns (Go `math.Float32bits` /
`Float32frombits` are exact mutually inverse bit casts, so the codec layer is
bit-for-bit faithful on the pattern representation).
-/

namespace Goldilocks

/-- A Go byte slice: `none` is a nil slice, `some l` a non-nil slice. -/
abbrev GoBytes := Option (List Nat)

/-- Go `append(buf, bs...)`: appending nothing returns `buf` unchanged (a nil
slice stays nil); appending to nil yields a fresh non-nil slice. -/
def goAppend (buf : GoBytes) (bs : List Nat) : GoBytes :=
  match bs with
  | [] => buf
  | _ =>
    match buf with
    | none => some bs
    | some l => some (l ++ bs)

/-- Go `len(buf)`; the length of a nil slice is 0. -/
def goLen (buf : GoBytes) : Nat :=
  match buf with
  | none => 0
  | some l => l.length

/-- Big-endian byte encoding of `v` into `w` bytes, exactly as
`binary.BigEndian.PutUint16/32/64` write `byte(v >> 8k)` for descending `k`
(each emitted byte is `(v / 256^k) % 256`). -/
def natToBE : Nat → Nat → List Nat
  | 0, _ => []
  | w + 1, v => natToBE w (v / 256) ++ [v % 256]

/-- Big-endian byte decoding, exactly as `binary.BigEndian.Uint16/32/64`
combine bytes as `b0 * 256^(w-1) + ... + b(w-1)`. -/
def beToNat (l : List Nat) : Nat :=
  l.foldl (fun acc b => acc * 256 + b) 0

/-- Go conversion of a signed integer to its unsigned machine representation
modulo `m` (`uint16(src)` with `m = 65536`, and so on). -/
def uintOfInt (m : Nat) (n : Int) : Nat := (n % (m : Int)).toNat

/-- Go reinterpretation of an unsigned machine value below `m` as a signed
integer (`int16(u)` with `m = 65536`, and so on). -/
def intOfUint (m : Nat) (u : Nat) : Int :=
  if u < m / 2 then (u : Int) else (u : Int) - (m : Int)

/-- Go `int32(n)` applied to a wider integer: wrap modulo 2^32 and
reinterpret as signed. -/
def int32cast (n : Int) : Int := intOfUint 4294967296 (uintOfInt 4294967296 n)

/-! ## pgtypes: parameter encoders (write functions)

Each Go write function takes the shared append buffer and the value and
returns `(grown buffer, oid, format)`; text format is 0, binary format is 1.
Strings are modelled as their UTF-8 byte lists. -/

def writeString (buf : GoBytes) (src : List Nat) : GoBytes × Nat × Int :=
  (goAppend buf src, 0, 0)

def writeInt16 (buf : GoBytes) (src : Int) : GoBytes × Nat × Int :=
  (goAppend buf (natToBE 2 (uintOfInt 65536 src)), 21, 1)

def writeInt32 (buf : GoBytes) (src : Int) : GoBytes × Nat × Int :=
  (goAppend buf (natToBE 4 (uintOfInt 4294967296 src)), 23, 1)

def writeInt64 (buf : GoBytes) (src : Int) : GoBytes × Nat × Int :=
  (goAppend buf (natToBE 8 (uintOfInt 18446744073709551616 src)), 20, 1)

/-- `writeFloat32` appends `math.Float32bits(src)` big-endian; the value is
modelled by its 32-bit pattern `bits`. -/
def writeFloat32 (buf : GoBytes) (bits : Nat) : GoBytes × Nat × Int :=
  (goAppend buf (natToBE 4 bits), 700, 1)

/-- `writeFloat64` appends `math.Float64bits(src)` big-endian; the value is
modelled by its 64-bit pattern `bits`. -/
def writeFloat64 (buf : GoBytes) (bits : Nat) : GoBytes × Nat × Int :=
  (goAppend buf (natToBE 8 bits), 701, 1)

def writeBool (buf : GoBytes) (src : Bool) : GoBytes × Nat × Int :=
  (goAppend buf [if src then 1 else 0], 16, 1)

/-- A `time.Time` value as the Date codec sees it: either a UTC-midnight
calendar date identified by its day offset from 2000-01-01, or one of the
two sentinel values `DateInfinity` / `DateNegativeInfinity` (which live in
years ±9999999, far outside any 32-bit day offset). -/
inductive GoDate
  | finite (days : Int)
  | infinity
  | negInfinity
deriving DecidableEq, Repr

/-- The zero `time.Time` (0001-01-01 UTC) is 730119 days before 2000-01-01
in the proleptic Gregorian calendar. -/
def goDateZero : GoDate := .finite (-730119)

/-- `writeDate`: for a UTC-midnight date, `tUnix - dateEpoch` is exactly
`days * 86400`, so `int32(secSinceDateEpoch / 86400)` is `int32(days)`;
the sentinel comparisons against `DateInfinity` / `DateNegativeInfinity`
select the reserved offsets. -/
def writeDate (buf : GoBytes) (src : GoDate) : GoBytes × Nat × Int :=
  let off : Int :=
    match src with
    | .infinity => 2147483647
    | .negInfinity => -2147483648
    | .finite d => int32cast d
  (goAppend buf (natToBE 4 (uintOfInt 4294967296 off)), 1082, 1)

/-! ## pgtypes: result decoders

A Go decoder writes through a destination pointer and returns an error.
It is modelled as a function from the payload and the old destination value
to `(optional error message, new destination value)`; on error the pair
carries the unchanged destination. -/

def readNotNullString (buf : List Nat) (_dst : List Nat) : Option String × List Nat :=
  (none, buf)

def notNullStringDecodeResult (buf : GoBytes) (dst : List Nat) : Option String × List Nat :=
  match buf with
  | none => (some ("NULL cannot be converted to string"), dst)
  | some l => readNotNullString l dst

def readNotNullInt16 (buf : List Nat) (dst : Int) : Option String × Int :=
  if buf.length ≠ 2 then
    (some ("int16 requires data length of 2, got " ++ toString buf.length), dst)
  else
    (none, intOfUint 65536 (beToNat buf))

def notNullInt16DecodeResult (buf : GoBytes) (dst : Int) : Option String × Int :=
  match buf with
  | none => (some ("NULL cannot be converted to int16"), dst)
  | some l => readNotNullInt16 l dst

def readNotNullInt32 (buf : List Nat) (dst : Int) : Option String × Int :=
  if buf.length ≠ 4 then
    (some ("int32 requires data length of 4, got " ++ toString buf.length), dst)
  else
    (none, intOfUint 4294967296 (beToNat buf))

def notNullInt32DecodeResult (buf : GoBytes) (dst : Int) : Option String × Int :=
  match buf with
  | none => (some ("NULL cannot be converted to int32"), dst)
  | some l => readNotNullInt32 l dst

def readNotNullInt64 (buf : List Nat) (dst : Int) : Option String × Int :=
  if buf.length ≠ 8 then
    (some ("int64 requires data length of 8, got " ++ toString buf.length), dst)
  else
    (none, intOfUint 18446744073709551616 (beToNat buf))

def notNullInt64DecodeResult (buf : GoBytes) (dst : Int) : Option String × Int :=
  match buf with
  | none => (some ("NULL cannot be converted to int64"), dst)
  | some l => readNotNullInt64 l dst

def readNotNullFloat32 (buf : List Nat) (dst : Nat) : Option String × Nat :=
  if buf.length ≠ 4 then
    (some ("float32 requires data length of 4, got " ++ toString buf.length), dst)
  else
    (none, beToNat buf)

def notNullFloat32DecodeResult (buf : GoBytes) (dst : Nat) : Option String × Nat :=
  match buf with
  | none => (some ("NULL cannot be converted to float32"), dst)
  | some l => readNotNullFloat32 l dst

def readNotNullFloat64 (buf : List Nat) (dst : Nat) : Option String × Nat :=
  if buf.length ≠ 8 then
    (some ("float64 requires data length of 8, got " ++ toString buf.length), dst)
  else
    (none, beToNat buf)

def notNullFloat64DecodeResult (buf : GoBytes) (dst : Nat) : Option String × Nat :=
  match buf with
  | none => (some ("NULL cannot be converted to float64"), dst)
  | some l => readNotNullFloat64 l dst

def readNotNullBool (buf : List Nat) (dst : Bool) : Option String × Bool :=
  if buf.length ≠ 1 then
    (some ("bool requires data length of 1, got " ++ toString buf.length), dst)
  else
    (none, buf.headD 0 == 1)

def notNullBoolDecodeResult (buf : GoBytes) (dst : Bool) : Option String × Bool :=
  match buf with
  | none => (some ("NULL cannot be converted to bool"), dst)
  | some l => readNotNullBool l dst

/-- `readNotNullDate`: `time.Date(2000, 1, 1+dayOffset, ...)` normalises day
overflow, producing exactly the UTC-midnight date `dayOffset` days after
2000-01-01; the two reserved offsets decode to the sentinels. -/
def readNotNullDate (buf : List Nat) (dst : GoDate) : Option String × GoDate :=
  if buf.length ≠ 4 then
    (some ("date requires data length of 4, got " ++ toString buf.length), dst)
  else
    let off := intOfUint 4294967296 (beToNat buf)
    if off = 2147483647 then (none, .infinity)
    else if off = -2147483648 then (none, .negInfinity)
    else (none, .finite off)

def dateDecodeResult (buf : GoBytes) (dst : GoDate) : Option String × GoDate :=
  match buf with
  | none => (some ("NULL cannot be converted to time.Time"), dst)
  | some l => readNotNullDate l dst

/-! ## pgtypes: NullT wrappers

Each `NullT` pairs a value with a validity flag. `EncodeParam` of an invalid
wrapper returns the literal nil slice (the NULL marker); the valid case
delegates to the corresponding write function. `DecodeResult` of a NULL
payload sets the whole wrapper to its zero value with `Valid = false`; a
non-NULL payload sets `Valid = true` first and then runs the `readNotNull`
helper, so a width error leaves `Value` unchanged but `Valid` already true,
exactly as in the Go source. -/

structure NullV (α : Type) where
  value : α
  valid : Bool
deriving DecidableEq, Repr

def nullStringEncodeParam (n : NullV (List Nat)) (buf : GoBytes) : GoBytes × Nat × Int :=
  if n.valid then writeString buf n.value else (none, 0, 0)

def nullStringDecodeResult (buf : GoBytes) (dst : NullV (List Nat)) :
    Option String × NullV (List Nat) :=
  match buf with
  | none => (none, ⟨[], false⟩)
  | some l =>
    let r := readNotNullString l dst.value
    (r.1, ⟨r.2, true⟩)

def nullInt16EncodeParam (n : NullV Int) (buf : GoBytes) : GoBytes × Nat × Int :=
  if n.valid then writeInt16 buf n.value else (none, 0, 1)

def nullInt16DecodeResult (buf : GoBytes) (dst : NullV Int) : Option String × NullV Int :=
  match buf with
  | none => (none, ⟨0, false⟩)
  | some l =>
    let r := readNotNullInt16 l dst.value
    (r.1, ⟨r.2, true⟩)

def nullInt32EncodeParam (n : NullV Int) (buf : GoBytes) : GoBytes × Nat × Int :=
  if n.valid then writeInt32 buf n.value else (none, 0, 1)

def nullInt32DecodeResult (buf : GoBytes) (dst : NullV Int) : Option String × NullV Int :=
  match buf with
  | none => (none, ⟨0, false⟩)
  | some l =>
    let r := readNotNullInt32 l dst.value
    (r.1, ⟨r.2, true⟩)

def nullInt64EncodeParam (n : NullV Int) (buf : GoBytes) : GoBytes × Nat × Int :=
  if n.valid then writeInt64 buf n.value else (none, 0, 1)

def nullInt64DecodeResult (buf : GoBytes) (dst : NullV Int) : Option String × NullV Int :=
  match buf with
  | none => (none, ⟨0, false⟩)
  | some l =>
    let r := readNotNullInt64 l dst.value
    (r.1, ⟨r.2, true⟩)

def nullFloat32EncodeParam (n : NullV Nat) (buf : GoBytes) : GoBytes × Nat × Int :=
  if n.valid then writeFloat32 buf n.value else (none, 0, 1)

def nullFloat32DecodeResult (buf : GoBytes) (dst : NullV Nat) : Option String × NullV Nat :=
  match buf with
  | none => (none, ⟨0, false⟩)
  | some l =>
    let r := readNotNullFloat32 l dst.value
    (r.1, ⟨r.2, true⟩)

def nullFloat64EncodeParam (n : NullV Nat) (buf : GoBytes) : GoBytes × Nat × Int :=
  if n.valid then writeFloat64 buf n.value else (none, 0, 1)

def nullFloat64DecodeResult (buf : GoBytes) (dst : NullV Nat) : Option String × NullV Nat :=
  match buf with
  | none => (none, ⟨0, false⟩)
  | some l =>
    let r := readNotNullFloat64 l dst.value
    (r.1, ⟨r.2, true⟩)

def nullBoolEncodeParam (n : NullV Bool) (buf : GoBytes) : GoBytes × Nat × Int :=
  if n.valid then writeBool buf n.value else (none, 0, 1)

def nullBoolDecodeResult (buf : GoBytes) (dst : NullV Bool) : Option String × NullV Bool :=
  match buf with
  | none => (none, ⟨false, false⟩)
  | some l =>
    let r := readNotNullBool l dst.value
    (r.1, ⟨r.2, true⟩)

def nullDateEncodeParam (n : NullV GoDate) (buf : GoBytes) : GoBytes × Nat × Int :=
  if n.valid then writeDate buf n.value else (none, 0, 1)

def nullDateDecodeResult (buf : GoBytes) (dst : NullV GoDate) :
    Option String × NullV GoDate :=
  match buf with
  | none => (none, ⟨goDateZero, false⟩)
  | some l =>
    let r := readNotNullDate l dst.value
    (r.1, ⟨r.2, true⟩)

/-! ## Conn.prepareParams: the argument-encoding loop

`prepareParams` type-switches each argument to its write function (or to a
caller-supplied `ParamEncoder`), then records `value[len(paramValuesBuf):]`
(the bytes the encoder appended) as `paramValues[i]` and advances the shared
buffer, or records nil when the returned buffer is nil.

A custom `ParamEncoder` that follows the library's append-and-view protocol
is characterised by what it appends (`none` meaning it returns the nil
slice, as the invalid `NullT` wrappers do), plus the oid and format it
reports. -/

structure EncSpec where
  appended : Option (List Nat)
  oid : Nat
  format : Int

inductive GoParam
  | pstr (s : List Nat)
  | pint16 (n : Int)
  | pint32 (n : Int)
  | pint64 (n : Int)
  | pfloat32 (bits : Nat)
  | pfloat64 (bits : Nat)
  | pbool (b : Bool)
  | pencoder (e : EncSpec)

/-- The type switch in `prepareParams`: dispatch one argument to its encoder,
passing the current shared buffer. -/
def encodeParamGo (arg : GoParam) (buf : GoBytes) : GoBytes × Nat × Int :=
  match arg with
  | .pstr s => writeString buf s
  | .pint16 n => writeInt16 buf n
  | .pint32 n => writeInt32 buf n
  | .pint64 n => writeInt64 buf n
  | .pfloat32 bits => writeFloat32 buf bits
  | .pfloat64 bits => writeFloat64 buf bits
  | .pbool b => writeBool buf b
  | .pencoder e =>
    match e.appended with
    | none => (none, e.oid, e.format)
    | some bs => (goAppend buf bs, e.oid, e.format)

/-- The bytes an argument's encoder means to transmit (`none` only for a
custom encoder that returns NULL); this is the claim-side notion of
"the encoder returned NULL". -/
def encAppended (arg : GoParam) : Option (List Nat) :=
  match arg with
  | .pstr s => some s
  | .pint16 n => some (natToBE 2 (uintOfInt 65536 n))
  | .pint32 n => some (natToBE 4 (uintOfInt 4294967296 n))
  | .pint64 n => some (natToBE 8 (uintOfInt 18446744073709551616 n))
  | .pfloat32 bits => some (natToBE 4 bits)
  | .pfloat64 bits => some (natToBE 8 bits)
  | .pbool b => some [if b then 1 else 0]
  | .pencoder e => e.appended

/-- The per-argument loop of `prepareParams`: returns the recorded
`paramValues`, `paramOIDs`, `paramFormats` and the final shared buffer.
`value == nil` is recorded as the NULL marker; otherwise the view
`value[len(paramValuesBuf):]` is recorded and the buffer becomes `value`. -/
def prepareParamsLoop : List GoParam → GoBytes → List GoBytes × List Nat × List Int × GoBytes
  | [], buf => ([], [], [], buf)
  | arg :: rest, buf =>
    let (value, oid, format) := encodeParamGo arg buf
    let (pv, buf') :=
      match value with
      | none => ((none : GoBytes), buf)
      | some l => (some (l.drop (goLen buf)), some l)
    let (pvs, oids, formats, bufF) := prepareParamsLoop rest buf'
    (pv :: pvs, oid :: oids, format :: formats, bufF)

/-- The scratch-array sizing decision at the top of `prepareParams` for a
non-empty argument list: given the current capacity of the scratch arrays,
`len(args)` and `cap(args)`, returns whether fresh arrays are allocated and
the resulting capacity. The Go condition is
`cap(c.paramValues) < len(args) || maxParamCap < cap(args)` — note the
second comparison reads the capacity of the caller's `args` slice. -/
def prepareParamsSizing (scratchCap argsLen argsCap : Nat) : Bool × Nat :=
  let maxParamCap := argsLen * 2
  let maxParamCap := if maxParamCap < 32 then 32 else maxParamCap
  if scratchCap < argsLen || maxParamCap < argsCap then
    (true, if argsLen < 32 then 32 else argsLen)
  else
    (false, scratchCap)

/-- The analogous sizing decision in `prepareResults`, threshold 64, with the
second comparison reading `cap(results)`. -/
def prepareResultsSizing (scratchCap resultsLen resultsCap : Nat) : Bool × Nat :=
  let maxResultsCap := resultsLen * 2
  let maxResultsCap := if maxResultsCap < 64 then 64 else maxResultsCap
  if scratchCap < resultsLen || maxResultsCap < resultsCap then
    (true, if resultsLen < 64 then 64 else resultsLen)
  else
    (false, scratchCap)

/-! ## Conn.Begin: transaction discipline

The wire driver is abstracted by the outcomes of the calls `Begin` makes:
the error of `Exec(ctx, "begin").Close()`, the error returned by `f`, the
byte reported by `TxStatus()`, and the errors of the commit and rollback
statements. Errors are an inductive type so that the three `fmt.Errorf`
messages of `Begin` are distinguishable from opaque wire and callback
errors. The outcome records the statements issued on the connection in
order and whether `Begin` closed the underlying connection. -/

inductive Err
  | wire (n : Nat)
  | user (n : Nat)
  | msg (s : String)
deriving DecidableEq, Repr

structure BeginEnv where
  beginErr : Option Err
  fErr : Option Err
  txStatus : Nat
  commitErr : Option Err
  rollbackErr : Option Err
deriving DecidableEq, Repr

structure BeginOutcome where
  ret : Option Err
  trace : List String
  closedConn : Bool
deriving DecidableEq, Repr

/-- `Conn.Begin` as a function of the wire outcomes. `txInProgress` starts
true after a successful BEGIN and is set to false only inside the `rollback`
closure, so the deferred `rollback()` fires on every exit path that has not
already rolled back — including the commit path, where the deferred call
issues a ROLLBACK after the COMMIT. Byte values: 84 = T, 69 = E, 73 = I. -/
def connBegin (env : BeginEnv) : BeginOutcome :=
  match env.beginErr with
  | some e => { ret := some e, trace := ["begin"], closedConn := false }
  | none =>
    match env.fErr with
    | some e =>
      { ret := some e
        trace := ["begin", "rollback"]
        closedConn := env.rollbackErr.isSome }
    | none =>
      if env.txStatus = 84 then
        { ret := env.commitErr
          trace := ["begin", "commit", "rollback"]
          closedConn := env.rollbackErr.isSome }
      else if env.txStatus = 69 then
        { ret := some (Err.msg ("rolled back failed transaction"))
          trace := ["begin", "rollback"]
          closedConn := env.rollbackErr.isSome }
      else if env.txStatus = 73 then
        { ret := some (Err.msg ("not in transaction after calling f"))
          trace := ["begin", "rollback"]
          closedConn := env.rollbackErr.isSome }
      else
        { ret := some (Err.msg ("impossible txStatus: " ++ toString env.txStatus))
          trace := ["begin", "rollback"]
          closedConn := env.rollbackErr.isSome }

/-- The return-value behaviour of `Begin` claimed by the spec: the BEGIN
error verbatim; otherwise the callback's error verbatim; otherwise by
transaction status the commit result, the two fixed error messages, or the
impossible-status error. -/
def beginRetSpec (env : BeginEnv) : Option Err :=
  match env.beginErr with
  | some e => some e
  | none =>
    match env.fErr with
    | some e => some e
    | none =>
      if env.txStatus = 84 then env.commitErr
      else if env.txStatus = 69 then some (Err.msg ("rolled back failed transaction"))
      else if env.txStatus = 73 then some (Err.msg ("not in transaction after calling f"))
      else some (Err.msg ("impossible txStatus: " ++ toString env.txStatus))

/-- The full property claimed of `Begin`: its returned error follows
`beginRetSpec`; a failing BEGIN causes no further statement and leaves the
connection open; when `f` fails, a ROLLBACK is issued and the connection is
closed exactly when that rollback errs; in the error transaction state a
ROLLBACK is issued. -/
def BeginClaim (env : BeginEnv) : Prop :=
  (connBegin env).ret = beginRetSpec env ∧
  (env.beginErr ≠ none → connBegin env = ⟨env.beginErr, ["begin"], false⟩) ∧
  (env.beginErr = none → env.fErr ≠ none →
    "rollback" ∈ (connBegin env).trace ∧
    (connBegin env).closedConn = env.rollbackErr.isSome) ∧
  (env.beginErr = none → env.fErr = none → env.txStatus = 69 →
    "rollback" ∈ (connBegin env).trace)

/-- Claim C8 exactly as stated: if `f` succeeded and the status is T, the
commit result is returned and no ROLLBACK is issued before `Begin` returns. -/
def CommitNoRollbackClaim (env : BeginEnv) : Prop :=
  env.beginErr = none → env.fErr = none → env.txStatus = 84 →
    (connBegin env).ret = env.commitErr ∧ "rollback" ∉ (connBegin env).trace

/-! ## Conn.Query and Conn.Exec: the execution engine

The wire result is abstracted as the list of rows it will deliver (each row
a list of payloads) plus the error its final `Close` reports. Result
decoders and the row callback act on an arbitrary state type `σ` (modelling
every destination the caller's pointers and closure can reach) and may
return an error. `bufLen`/`bufCap` are the length and capacity of
`paramValuesBuf` after parameter encoding; `bufReleased` records whether
`releaseOversizedParamValuesBuf` set the buffer to nil. -/

abbrev ResDecoder (σ : Type) := σ → GoBytes → Option Err × σ

abbrev RowFn (σ : Type) := σ → Option Err × σ

/-- The inner column loop of a single row: invoke each decoder on its column
in order, stopping at the first error. The final case is unreachable when
the wire row has one value per decoder (Go would panic otherwise). -/
def decodeRow {σ : Type} : List (ResDecoder σ) → List GoBytes → σ → Option Err × σ
  | [], _, s => (none, s)
  | _ :: _, [], s => (none, s)
  | d :: ds, v :: vs, s =>
    match d s v with
    | (some e, s') => (some e, s')
    | (none, s') => decodeRow ds vs s'

/-- One row of the loop body: decode every column, then invoke the row
callback. -/
def rowStep {σ : Type} (ds : List (ResDecoder σ)) (f : RowFn σ) (r : List GoBytes) (s : σ) :
    Option Err × σ :=
  match decodeRow ds r s with
  | (some e, s') => (some e, s')
  | (none, s') => f s'

/-- The row loop of `Query`: for each row increment the count, run the row
step, and stop at the first error. -/
def queryLoop {σ : Type} (ds : List (ResDecoder σ)) (f : RowFn σ) :
    List (List GoBytes) → σ → Nat → Nat × Option Err × σ
  | [], s, n => (n, none, s)
  | r :: rs, s, n =>
    match rowStep ds f r s with
    | (some e, s') => (n + 1, some e, s')
    | (none, s') => queryLoop ds f rs s' (n + 1)

structure QueryEnv (σ : Type) where
  prepErr : Option Err
  rows : List (List GoBytes)
  decoders : List (ResDecoder σ)
  rowFn : RowFn σ
  closeErr : Option Err
  bufLen : Nat
  bufCap : Nat

structure QueryOutcome (σ : Type) where
  count : Nat
  err : Option Err
  state : σ
  closed : Bool
  bufReleased : Bool
deriving DecidableEq, Repr

/-- `Conn.Query`: parameter/result preparation errors return immediately
(before the wire call, so nothing to close); then `defer rr.Close()`
guards the loop; on loop success the explicit `Close` error is checked and
only then is `releaseOversizedParamValuesBuf` reached. -/
def connQuery {σ : Type} (env : QueryEnv σ) (s0 : σ) : QueryOutcome σ :=
  match env.prepErr with
  | some e => ⟨0, some e, s0, false, false⟩
  | none =>
    match queryLoop env.decoders env.rowFn env.rows s0 0 with
    | (n, some e, s) => ⟨n, some e, s, true, false⟩
    | (n, none, s) =>
      match env.closeErr with
      | some ce => ⟨n, some ce, s, true, false⟩
      | none => ⟨n, none, s, true, decide (env.bufLen + 512 < env.bufCap / 2)⟩

structure ExecEnv where
  prepErr : Option Err
  closeErr : Option Err
  rowsAffected : Int
  bufLen : Nat
  bufCap : Nat
deriving DecidableEq, Repr

structure ExecOutcome where
  rowsAffected : Int
  err : Option Err
  bufReleased : Bool
deriving DecidableEq, Repr

/-- `Conn.Exec`: prepare parameters, run the wire call and close it for the
command tag; `releaseOversizedParamValuesBuf` is reached only when the close
reported no error. -/
def connExec (env : ExecEnv) : ExecOutcome :=
  match env.prepErr with
  | some e => ⟨0, some e, false⟩
  | none =>
    match env.closeErr with
    | some e => ⟨0, some e, false⟩
    | none => ⟨env.rowsAffected, none, decide (env.bufLen + 512 < env.bufCap / 2)⟩

/-! ## Pool.Acquire and Pool.releaseConn -/

inductive ReleaseAction
  | destroy
  | release
deriving DecidableEq, Repr

/-- `Pool.releaseConn`: destroy the resource when the wire session is
closed or busy, the transaction status differs from I (byte 73), or the
connection's age exceeds `maxConnLifetime`; otherwise release it back to
the pool. -/
def releaseConnAction (isClosed isBusy : Bool) (txStatus : Nat) (age maxConnLifetime : Int) :
    ReleaseAction :=
  if isClosed || isBusy || decide (txStatus ≠ 73) || decide (age > maxConnLifetime) then
    .destroy
  else
    .release

structure AcquireEnv where
  acquireErr : Option Err
  fErr : Option Err
  isClosed : Bool
  isBusy : Bool
  txStatus : Nat
  age : Int
  maxConnLifetime : Int
deriving DecidableEq, Repr

structure AcquireOutcome where
  ret : Option Err
  released : Option ReleaseAction
deriving DecidableEq, Repr

/-- `Pool.Acquire`: a failed acquire returns its error with no release;
otherwise `releaseConn` is deferred, so it classifies the connection on
every exit of the callback, and the callback's error is propagated. -/
def poolAcquire (env : AcquireEnv) : AcquireOutcome :=
  match env.acquireErr with
  | some e => ⟨some e, none⟩
  | none =>
    ⟨env.fErr,
     some (releaseConnAction env.isClosed env.isBusy env.txStatus env.age env.maxConnLifetime)⟩

/-! ## ParsePoolConfig

`pgconn.ParseConfig` and `time.ParseDuration` are external collaborators:
the model starts from the five pool-specific runtime parameters that
`ParsePoolConfig` extracts (each present or absent after the wire driver's
parse), takes the duration parser as an oracle argument, and embeds
`strconv.ParseInt(s, 10, 32)` directly. Durations are nanosecond counts. -/

/-- One decimal digit of `strconv.ParseInt`: code points 48-57. -/
def decDigit (c : Char) : Option Nat :=
  if 48 ≤ c.toNat ∧ c.toNat ≤ 57 then some (c.toNat - 48) else none

def decDigitsAux : List Char → Nat → Option Nat
  | [], acc => some acc
  | c :: rest, acc =>
    match decDigit c with
    | none => none
    | some d => decDigitsAux rest (acc * 10 + d)

/-- The digit run of `strconv.ParseInt`: empty input is an error. -/
def decDigitsVal : List Char → Option Nat
  | [] => none
  | l => decDigitsAux l 0

/-- `strconv.ParseInt(s, 10, 32)`: optional sign (code points 45 and 43),
base-10 digits only, and a 32-bit signed range check. -/
def goParseInt32 (s : String) : Except Unit Int :=
  match s.data with
  | [] => .error ()
  | c :: rest =>
    let signed : Bool × List Char :=
      if c.toNat = 45 then (true, rest)
      else if c.toNat = 43 then (false, rest)
      else (false, c :: rest)
    match decDigitsVal signed.2 with
    | none => .error ()
    | some m =>
      let v : Int := if signed.1 then -(m : Int) else (m : Int)
      if v < -2147483648 ∨ 2147483647 < v then .error () else .ok v

structure PoolKeys where
  maxConnsStr : Option String
  minConnsStr : Option String
  lifetimeStr : Option String
  idleTimeStr : Option String
  healthStr : Option String

inductive ConfigErr
  | cannotParseMaxConns
  | maxConnsTooSmall (n : Int)
  | cannotParseMinConns
  | invalidMaxConnLifetime
  | invalidMaxConnIdleTime
  | invalidHealthCheckPeriod
deriving DecidableEq, Repr

structure PoolCfg where
  maxConns : Int
  minConns : Int
  maxConnLifetime : Int
  maxConnIdleTime : Int
  healthCheckPeriod : Int
deriving DecidableEq, Repr

/-- `ParsePoolConfig` after the wire driver's parse: extract the five keys
in source order, with defaults `max(4, numCPU)`, 0, one hour, five minutes
and one minute (in nanoseconds). `pool_max_conns` rejects values below 1;
`pool_min_conns` is stored without any range check. -/
def parsePoolConfig (numCPU : Int) (durParse : String → Except Unit Int) (ps : PoolKeys) :
    Except ConfigErr PoolCfg :=
  let maxR : Except ConfigErr Int :=
    match ps.maxConnsStr with
    | some s =>
      match goParseInt32 s with
      | .error _ => .error .cannotParseMaxConns
      | .ok n => if n < 1 then .error (.maxConnsTooSmall n) else .ok n
    | none => .ok (if numCPU > 4 then numCPU else 4)
  match maxR with
  | .error e => .error e
  | .ok mx =>
    let minR : Except ConfigErr Int :=
      match ps.minConnsStr with
      | some s =>
        match goParseInt32 s with
        | .error _ => .error .cannotParseMinConns
        | .ok n => .ok n
      | none => .ok 0
    match minR with
    | .error e => .error e
    | .ok mn =>
      let lifeR : Except ConfigErr Int :=
        match ps.lifetimeStr with
        | some s =>
          match durParse s with
          | .error _ => .error .invalidMaxConnLifetime
          | .ok d => .ok d
        | none => .ok 3600000000000
      match lifeR with
      | .error e => .error e
      | .ok life =>
        let idleR : Except ConfigErr Int :=
          match ps.idleTimeStr with
          | some s =>
            match durParse s with
            | .error _ => .error .invalidMaxConnIdleTime
            | .ok d => .ok d
          | none => .ok 300000000000
        match idleR with
        | .error e => .error e
        | .ok idle =>
          let healthR : Except ConfigErr Int :=
            match ps.healthStr with
            | some s =>
              match durParse s with
              | .error _ => .error .invalidHealthCheckPeriod
              | .ok d => .ok d
            | none => .ok 60000000000
          match healthR with
          | .error e => .error e
          | .ok health => .ok ⟨mx, mn, life, idle, health⟩

/-! ## Claim-side characterisations -/

/-- What the spec promises of a fixed-width non-nullable decoder `D` for
type name `t` and payload width `w`: decoding succeeds exactly on non-NULL
payloads of width `w`; a NULL payload yields the fixed message; every error
leaves the destination unchanged. -/
def FixedWidthCharacterization {α : Type} (w : Nat) (t : String)
    (D : GoBytes → α → Option String × α) : Prop :=
  ∀ buf dst,
    ((D buf dst).1 = none ↔ ∃ l, buf = some l ∧ l.length = w) ∧
    (buf = none → (D buf dst).1 = some ("NULL cannot be converted to " ++ t)) ∧
    ((D buf dst).1 ≠ none → (D buf dst).2 = dst)

/-- The string decoder has no width constraint: it fails exactly on NULL. -/
def StringDecoderCharacterization : Prop :=
  ∀ buf dst,
    ((notNullStringDecodeResult buf dst).1 = none ↔ buf ≠ none) ∧
    (buf = none →
      (notNullStringDecodeResult buf dst).1 = some ("NULL cannot be converted to string")) ∧
    ((notNullStringDecodeResult buf dst).1 ≠ none →
      (notNullStringDecodeResult buf dst).2 = dst)

/-! ## Helper lemmas -/

theorem goAppend_some (l bs : List Nat) : goAppend (some l) bs = some (l ++ bs) := by
  cases bs <;> simp [goAppend]

theorem natToBE_length (w v : Nat) : (natToBE w v).length = w := by
  induction w generalizing v with
  | zero => rfl
  | succ w ih => simp [natToBE, ih]

theorem beToNat_append (l : List Nat) (b : Nat) :
    beToNat (l ++ [b]) = beToNat l * 256 + b := by
  simp [beToNat, List.foldl_append]

theorem beToNat_natToBE (w v : Nat) (h : v < 256 ^ w) :
    beToNat (natToBE w v) = v := by
  induction w generalizing v with
  | zero =>
    simp only [pow_zero] at h
    interval_cases v
    rfl
  | succ w ih =>
    have hlt : v / 256 < 256 ^ w := by
      rw [pow_succ, mul_comm] at h
      exact Nat.div_lt_of_lt_mul h
    rw [natToBE, beToNat_append, ih _ hlt]
    omega

theorem uintOfInt16_lt (n : Int) : uintOfInt 65536 n < 65536 := by
  unfold uintOfInt
  omega

theorem uintOfInt32_lt (n : Int) : uintOfInt 4294967296 n < 4294967296 := by
  unfold uintOfInt
  omega

theorem uintOfInt64_lt (n : Int) : uintOfInt 18446744073709551616 n < 18446744073709551616 := by
  unfold uintOfInt
  omega

theorem intOfUint_uintOfInt16 (n : Int) (h1 : -32768 ≤ n) (h2 : n ≤ 32767) :
    intOfUint 65536 (uintOfInt 65536 n) = n := by
  unfold intOfUint uintOfInt
  split <;> omega

theorem intOfUint_uintOfInt32 (n : Int) (h1 : -2147483648 ≤ n) (h2 : n ≤ 2147483647) :
    intOfUint 4294967296 (uintOfInt 4294967296 n) = n := by
  unfold intOfUint uintOfInt
  split <;> omega

theorem intOfUint_uintOfInt64 (n : Int)
    (h1 : -9223372036854775808 ≤ n) (h2 : n ≤ 9223372036854775807) :
    intOfUint 18446744073709551616 (uintOfInt 18446744073709551616 n) = n := by
  unfold intOfUint uintOfInt
  split <;> omega

theorem int32cast_eq (n : Int) (h1 : -2147483648 ≤ n) (h2 : n ≤ 2147483647) :
    int32cast n = n := by
  unfold int32cast
  exact intOfUint_uintOfInt32 n h1 h2

/-! ## Claim C2: Begin control flow -/

/-- C2: Begin issues BEGIN and, if that wire call fails, returns its error
without further action; otherwise it runs f and returns f's own error when
f returned one (after issuing ROLLBACK, closing the connection if the
rollback errs), the COMMIT result when txStatus is T, the error
"rolled back failed transaction" after issuing ROLLBACK when txStatus is E,
the error "not in transaction after calling f" when txStatus is I, and an
impossible-txStatus error for any other status byte. -/
theorem c2_begin_control_flow : ∀ env : BeginEnv, BeginClaim env := by
  intro env
  rcases env with ⟨be, fe, tx, ce, re⟩
  unfold BeginClaim beginRetSpec connBegin
  cases be <;> cases fe <;>
    simp <;>
    split_ifs <;>
    simp

/-- C2 witness: the claim instantiated at a concrete environment where f
fails and the rollback also fails, forcing the connection to be closed. -/
theorem c2_begin_control_flow_witness :
    BeginClaim ⟨none, some (Err.user 5), 84, none, some (Err.wire 9)⟩ :=
  c2_begin_control_flow ⟨none, some (Err.user 5), 84, none, some (Err.wire 9)⟩

/-! ## Claim C8: the commit path -/

/-- C8 counterexample: with a successful BEGIN, a successful callback,
txStatus T and error-free commit and rollback, the deferred rollback closure
still fires (txInProgress is only cleared inside the closure), so a ROLLBACK
statement is issued on the connection before Begin returns, contradicting
the claim as stated. -/
theorem c8_commit_path_rollback_counterexample :
    ¬ CommitNoRollbackClaim ⟨none, none, 84, none, none⟩ := by
  intro h
  have hc := h rfl rfl rfl
  exact hc.2 (by decide)

/-- C8 amended: when f returns nil and txStatus is T, Begin issues COMMIT
and returns the commit's error or success; because txInProgress is never
cleared on this path, the deferred cleanup then issues exactly one ROLLBACK,
after the COMMIT, and closes the connection if that rollback errs. -/
theorem c8_commit_then_deferred_rollback (env : BeginEnv)
    (hb : env.beginErr = none) (hf : env.fErr = none) (ht : env.txStatus = 84) :
    connBegin env =
      ⟨env.commitErr, ["begin", "commit", "rollback"], env.rollbackErr.isSome⟩ := by
  rcases env with ⟨be, fe, tx, ce, re⟩
  simp only at hb hf ht
  subst hb hf ht
  rfl

/-- C8 amended witness: the amended claim at a concrete environment with a
failing commit. -/
theorem c8_commit_then_deferred_rollback_witness :
    connBegin ⟨none, none, 84, some (Err.wire 7), none⟩ =
      ⟨some (Err.wire 7), ["begin", "commit", "rollback"], false⟩ :=
  c8_commit_then_deferred_rollback ⟨none, none, 84, some (Err.wire 7), none⟩ rfl rfl rfl

/-! ## Round-trip helper lemmas for the codecs -/

theorem readNotNullInt16_enc (n : Int) (h1 : -32768 ≤ n) (h2 : n ≤ 32767) (x : Int) :
    readNotNullInt16 (natToBE 2 (uintOfInt 65536 n)) x = (none, n) := by
  have hb : uintOfInt 65536 n < 256 ^ 2 := by
    have e : (256 : Nat) ^ 2 = 65536 := by norm_num
    rw [e]
    exact uintOfInt16_lt n
  simp only [readNotNullInt16, natToBE_length]
  norm_num
  rw [beToNat_natToBE _ _ hb, intOfUint_uintOfInt16 n h1 h2]

theorem readNotNullInt32_enc (n : Int) (h1 : -2147483648 ≤ n) (h2 : n ≤ 2147483647) (x : Int) :
    readNotNullInt32 (natToBE 4 (uintOfInt 4294967296 n)) x = (none, n) := by
  have hb : uintOfInt 4294967296 n < 256 ^ 4 := by
    have e : (256 : Nat) ^ 4 = 4294967296 := by norm_num
    rw [e]
    exact uintOfInt32_lt n
  simp only [readNotNullInt32, natToBE_length]
  norm_num
  rw [beToNat_natToBE _ _ hb, intOfUint_uintOfInt32 n h1 h2]

theorem readNotNullInt64_enc (n : Int)
    (h1 : -9223372036854775808 ≤ n) (h2 : n ≤ 9223372036854775807) (x : Int) :
    readNotNullInt64 (natToBE 8 (uintOfInt 18446744073709551616 n)) x = (none, n) := by
  have hb : uintOfInt 18446744073709551616 n < 256 ^ 8 := by
    have e : (256 : Nat) ^ 8 = 18446744073709551616 := by norm_num
    rw [e]
    exact uintOfInt64_lt n
  simp only [readNotNullInt64, natToBE_length]
  norm_num
  rw [beToNat_natToBE _ _ hb, intOfUint_uintOfInt64 n h1 h2]

theorem readNotNullFloat32_enc (bits : Nat) (h : bits < 4294967296) (x : Nat) :
    readNotNullFloat32 (natToBE 4 bits) x = (none, bits) := by
  have hb : bits < 256 ^ 4 := by
    have e : (256 : Nat) ^ 4 = 4294967296 := by norm_num
    rw [e]
    exact h
  simp only [readNotNullFloat32, natToBE_length]
  norm_num
  rw [beToNat_natToBE _ _ hb]

theorem readNotNullFloat64_enc (bits : Nat) (h : bits < 18446744073709551616) (x : Nat) :
    readNotNullFloat64 (natToBE 8 bits) x = (none, bits) := by
  have hb : bits < 256 ^ 8 := by
    have e : (256 : Nat) ^ 8 = 18446744073709551616 := by norm_num
    rw [e]
    exact h
  simp only [readNotNullFloat64, natToBE_length]
  norm_num
  rw [beToNat_natToBE _ _ hb]

theorem readNotNullDate_enc (d : Int) (h1 : -2147483647 ≤ d) (h2 : d ≤ 2147483646)
    (x : GoDate) :
    readNotNullDate (natToBE 4 (uintOfInt 4294967296 d)) x = (none, GoDate.finite d) := by
  have hb : uintOfInt 4294967296 d < 256 ^ 4 := by
    have e : (256 : Nat) ^ 4 = 4294967296 := by norm_num
    rw [e]
    exact uintOfInt32_lt d
  simp only [readNotNullDate, natToBE_length]
  norm_num
  rw [beToNat_natToBE _ _ hb, intOfUint_uintOfInt32 d (by omega) (by omega)]
  rw [if_neg (by omega), if_neg (by omega)]

theorem string_round (s : List Nat) (dst : List Nat) :
    notNullStringDecodeResult (writeString (some []) s).1 dst = (none, s) := by
  show notNullStringDecodeResult (goAppend (some []) s) dst = (none, s)
  rw [goAppend_some, List.nil_append]
  rfl

theorem int16_round (n : Int) (h1 : -32768 ≤ n) (h2 : n ≤ 32767) (dst : Int) :
    notNullInt16DecodeResult (writeInt16 (some []) n).1 dst = (none, n) := by
  show notNullInt16DecodeResult (goAppend (some []) (natToBE 2 (uintOfInt 65536 n))) dst =
    (none, n)
  rw [goAppend_some, List.nil_append]
  exact readNotNullInt16_enc n h1 h2 dst

theorem int32_round (n : Int) (h1 : -2147483648 ≤ n) (h2 : n ≤ 2147483647) (dst : Int) :
    notNullInt32DecodeResult (writeInt32 (some []) n).1 dst = (none, n) := by
  show notNullInt32DecodeResult (goAppend (some []) (natToBE 4 (uintOfInt 4294967296 n))) dst =
    (none, n)
  rw [goAppend_some, List.nil_append]
  exact readNotNullInt32_enc n h1 h2 dst

theorem int64_round (n : Int)
    (h1 : -9223372036854775808 ≤ n) (h2 : n ≤ 9223372036854775807) (dst : Int) :
    notNullInt64DecodeResult (writeInt64 (some []) n).1 dst = (none, n) := by
  show notNullInt64DecodeResult
      (goAppend (some []) (natToBE 8 (uintOfInt 18446744073709551616 n))) dst = (none, n)
  rw [goAppend_some, List.nil_append]
  exact readNotNullInt64_enc n h1 h2 dst

theorem float32_round (bits : Nat) (h : bits < 4294967296) (dst : Nat) :
    notNullFloat32DecodeResult (writeFloat32 (some []) bits).1 dst = (none, bits) := by
  show notNullFloat32DecodeResult (goAppend (some []) (natToBE 4 bits)) dst = (none, bits)
  rw [goAppend_some, List.nil_append]
  exact readNotNullFloat32_enc bits h dst

theorem float64_round (bits : Nat) (h : bits < 18446744073709551616) (dst : Nat) :
    notNullFloat64DecodeResult (writeFloat64 (some []) bits).1 dst = (none, bits) := by
  show notNullFloat64DecodeResult (goAppend (some []) (natToBE 8 bits)) dst = (none, bits)
  rw [goAppend_some, List.nil_append]
  exact readNotNullFloat64_enc bits h dst

theorem bool_round (b : Bool) (dst : Bool) :
    notNullBoolDecodeResult (writeBool (some []) b).1 dst = (none, b) := by
  cases b <;> rfl

theorem date_round (d : Int) (h1 : -2147483647 ≤ d) (h2 : d ≤ 2147483646) (dst : GoDate) :
    dateDecodeResult (writeDate (some []) (GoDate.finite d)).1 dst = (none, GoDate.finite d) := by
  have hcast : int32cast d = d := int32cast_eq d (by omega) (by omega)
  show dateDecodeResult
      (goAppend (some []) (natToBE 4 (uintOfInt 4294967296 (int32cast d)))) dst =
    (none, GoDate.finite d)
  rw [hcast, goAppend_some, List.nil_append]
  exact readNotNullDate_enc d h1 h2 dst

theorem nullString_round_valid (s : List Nat) (dst : NullV (List Nat)) :
    nullStringDecodeResult (nullStringEncodeParam ⟨s, true⟩ (some [])).1 dst =
      (none, ⟨s, true⟩) := by
  show nullStringDecodeResult (goAppend (some []) s) dst = (none, ⟨s, true⟩)
  rw [goAppend_some, List.nil_append]
  rfl

theorem nullInt16_round_valid (v : Int) (h1 : -32768 ≤ v) (h2 : v ≤ 32767) (dst : NullV Int) :
    nullInt16DecodeResult (nullInt16EncodeParam ⟨v, true⟩ (some [])).1 dst =
      (none, ⟨v, true⟩) := by
  show nullInt16DecodeResult (goAppend (some []) (natToBE 2 (uintOfInt 65536 v))) dst =
    (none, ⟨v, true⟩)
  rw [goAppend_some, List.nil_append]
  simp only [nullInt16DecodeResult, readNotNullInt16_enc v h1 h2 dst.value]

theorem nullInt32_round_valid (v : Int) (h1 : -2147483648 ≤ v) (h2 : v ≤ 2147483647)
    (dst : NullV Int) :
    nullInt32DecodeResult (nullInt32EncodeParam ⟨v, true⟩ (some [])).1 dst =
      (none, ⟨v, true⟩) := by
  show nullInt32DecodeResult (goAppend (some []) (natToBE 4 (uintOfInt 4294967296 v))) dst =
    (none, ⟨v, true⟩)
  rw [goAppend_some, List.nil_append]
  simp only [nullInt32DecodeResult, readNotNullInt32_enc v h1 h2 dst.value]

theorem nullInt64_round_valid (v : Int)
    (h1 : -9223372036854775808 ≤ v) (h2 : v ≤ 9223372036854775807) (dst : NullV Int) :
    nullInt64DecodeResult (nullInt64EncodeParam ⟨v, true⟩ (some [])).1 dst =
      (none, ⟨v, true⟩) := by
  show nullInt64DecodeResult
      (goAppend (some []) (natToBE 8 (uintOfInt 18446744073709551616 v))) dst =
    (none, ⟨v, true⟩)
  rw [goAppend_some, List.nil_append]
  simp only [nullInt64DecodeResult, readNotNullInt64_enc v h1 h2 dst.value]

theorem nullFloat32_round_valid (bits : Nat) (h : bits < 4294967296) (dst : NullV Nat) :
    nullFloat32DecodeResult (nullFloat32EncodeParam ⟨bits, true⟩ (some [])).1 dst =
      (none, ⟨bits, true⟩) := by
  show nullFloat32DecodeResult (goAppend (some []) (natToBE 4 bits)) dst = (none, ⟨bits, true⟩)
  rw [goAppend_some, List.nil_append]
  simp only [nullFloat32DecodeResult, readNotNullFloat32_enc bits h dst.value]

theorem nullFloat64_round_valid (bits : Nat) (h : bits < 18446744073709551616)
    (dst : NullV Nat) :
    nullFloat64DecodeResult (nullFloat64EncodeParam ⟨bits, true⟩ (some [])).1 dst =
      (none, ⟨bits, true⟩) := by
  show nullFloat64DecodeResult (goAppend (some []) (natToBE 8 bits)) dst = (none, ⟨bits, true⟩)
  rw [goAppend_some, List.nil_append]
  simp only [nullFloat64DecodeResult, readNotNullFloat64_enc bits h dst.value]

theorem nullBool_round_valid (b : Bool) (dst : NullV Bool) :
    nullBoolDecodeResult (nullBoolEncodeParam ⟨b, true⟩ (some [])).1 dst =
      (none, ⟨b, true⟩) := by
  cases b <;> rfl

theorem nullDate_round_valid_finite (d : Int) (h1 : -2147483647 ≤ d) (h2 : d ≤ 2147483646)
    (dst : NullV GoDate) :
    nullDateDecodeResult (nullDateEncodeParam ⟨GoDate.finite d, true⟩ (some [])).1 dst =
      (none, ⟨GoDate.finite d, true⟩) := by
  have hcast : int32cast d = d := int32cast_eq d (by omega) (by omega)
  show nullDateDecodeResult
      (goAppend (some []) (natToBE 4 (uintOfInt 4294967296 (int32cast d)))) dst =
    (none, ⟨GoDate.finite d, true⟩)
  rw [hcast, goAppend_some, List.nil_append]
  simp only [nullDateDecodeResult, readNotNullDate_enc d h1 h2 dst.value]

/-! ## Claim C3: codec round trips -/

/-- C3 counterexample: the finite UTC-midnight date with day-offset
2147483647 (which is inside the signed 32-bit day-offset range) encodes to
the infinity sentinel offset and decodes back to `DateInfinity`, not to the
original date, so the claim as stated fails at that input. -/
theorem c3_date_sentinel_offset_counterexample :
    dateDecodeResult (writeDate (some []) (GoDate.finite 2147483647)).1 goDateZero =
      (none, GoDate.infinity) ∧
    (none, GoDate.infinity) ≠
      ((none : Option String), GoDate.finite 2147483647) := by
  constructor
  · rfl
  · decide

/-- C3 amended: decoding the bytes produced by each builtin codec's encoder
yields the original value back: strings, int16/int32/int64 over their
machine ranges, float32/float64 over all bit patterns, bool, and every
UTC-midnight date whose day-offset from 2000-01-01 UTC lies in the signed
32-bit range excluding the two reserved sentinel offsets (-2147483647 to
2147483646); DateInfinity and DateNegativeInfinity encode to the day-offsets
2147483647 and -2147483648 (bytes 7f ff ff ff and 80 00 00 00) and decode
back to the same sentinels; every NullT wrapper round-trips through
EncodeParam followed by DecodeResult, valid values to themselves and
invalid (NULL) values to the NULL wrapper. -/
theorem c3_codec_round_trip_amended :
    (∀ s dst, notNullStringDecodeResult (writeString (some []) s).1 dst = (none, s)) ∧
    (∀ n dst, -32768 ≤ n → n ≤ 32767 →
      notNullInt16DecodeResult (writeInt16 (some []) n).1 dst = (none, n)) ∧
    (∀ n dst, -2147483648 ≤ n → n ≤ 2147483647 →
      notNullInt32DecodeResult (writeInt32 (some []) n).1 dst = (none, n)) ∧
    (∀ n dst, -9223372036854775808 ≤ n → n ≤ 9223372036854775807 →
      notNullInt64DecodeResult (writeInt64 (some []) n).1 dst = (none, n)) ∧
    (∀ bits dst, bits < 4294967296 →
      notNullFloat32DecodeResult (writeFloat32 (some []) bits).1 dst = (none, bits)) ∧
    (∀ bits dst, bits < 18446744073709551616 →
      notNullFloat64DecodeResult (writeFloat64 (some []) bits).1 dst = (none, bits)) ∧
    (∀ b dst, notNullBoolDecodeResult (writeBool (some []) b).1 dst = (none, b)) ∧
    (∀ d dst, -2147483647 ≤ d → d ≤ 2147483646 →
      dateDecodeResult (writeDate (some []) (GoDate.finite d)).1 dst =
        (none, GoDate.finite d)) ∧
    (writeDate (some []) GoDate.infinity = (some [127, 255, 255, 255], 1082, 1) ∧
      dateDecodeResult (writeDate (some []) GoDate.infinity).1 goDateZero =
        (none, GoDate.infinity)) ∧
    (writeDate (some []) GoDate.negInfinity = (some [128, 0, 0, 0], 1082, 1) ∧
      dateDecodeResult (writeDate (some []) GoDate.negInfinity).1 goDateZero =
        (none, GoDate.negInfinity)) ∧
    (∀ s dst, nullStringDecodeResult (nullStringEncodeParam ⟨s, true⟩ (some [])).1 dst =
      (none, ⟨s, true⟩)) ∧
    (∀ s dst, nullStringDecodeResult (nullStringEncodeParam ⟨s, false⟩ (some [])).1 dst =
      (none, ⟨[], false⟩)) ∧
    (∀ v dst, -32768 ≤ v → v ≤ 32767 →
      nullInt16DecodeResult (nullInt16EncodeParam ⟨v, true⟩ (some [])).1 dst =
        (none, ⟨v, true⟩)) ∧
    (∀ v dst, nullInt16DecodeResult (nullInt16EncodeParam ⟨v, false⟩ (some [])).1 dst =
      (none, ⟨0, false⟩)) ∧
    (∀ v dst, -2147483648 ≤ v → v ≤ 2147483647 →
      nullInt32DecodeResult (nullInt32EncodeParam ⟨v, true⟩ (some [])).1 dst =
        (none, ⟨v, true⟩)) ∧
    (∀ v dst, nullInt32DecodeResult (nullInt32EncodeParam ⟨v, false⟩ (some [])).1 dst =
      (none, ⟨0, false⟩)) ∧
    (∀ v dst, -9223372036854775808 ≤ v → v ≤ 9223372036854775807 →
      nullInt64DecodeResult (nullInt64EncodeParam ⟨v, true⟩ (some [])).1 dst =
        (none, ⟨v, true⟩)) ∧
    (∀ v dst, nullInt64DecodeResult (nullInt64EncodeParam ⟨v, false⟩ (some [])).1 dst =
      (none, ⟨0, false⟩)) ∧
    (∀ bits dst, bits < 4294967296 →
      nullFloat32DecodeResult (nullFloat32EncodeParam ⟨bits, true⟩ (some [])).1 dst =
        (none, ⟨bits, true⟩)) ∧
    (∀ bits dst, nullFloat32DecodeResult (nullFloat32EncodeParam ⟨bits, false⟩ (some [])).1
      dst = (none, ⟨0, false⟩)) ∧
    (∀ bits dst, bits < 18446744073709551616 →
      nullFloat64DecodeResult (nullFloat64EncodeParam ⟨bits, true⟩ (some [])).1 dst =
        (none, ⟨bits, true⟩)) ∧
    (∀ bits dst, nullFloat64DecodeResult (nullFloat64EncodeParam ⟨bits, false⟩ (some [])).1
      dst = (none, ⟨0, false⟩)) ∧
    (∀ b dst, nullBoolDecodeResult (nullBoolEncodeParam ⟨b, true⟩ (some [])).1 dst =
      (none, ⟨b, true⟩)) ∧
    (∀ b dst, nullBoolDecodeResult (nullBoolEncodeParam ⟨b, false⟩ (some [])).1 dst =
      (none, ⟨false, false⟩)) ∧
    (∀ d dst, -2147483647 ≤ d → d ≤ 2147483646 →
      nullDateDecodeResult (nullDateEncodeParam ⟨GoDate.finite d, true⟩ (some [])).1 dst =
        (none, ⟨GoDate.finite d, true⟩)) ∧
    (∀ dst, nullDateDecodeResult (nullDateEncodeParam ⟨GoDate.infinity, true⟩ (some [])).1
      dst = (none, ⟨GoDate.infinity, true⟩)) ∧
    (∀ dst, nullDateDecodeResult (nullDateEncodeParam ⟨GoDate.negInfinity, true⟩ (some [])).1
      dst = (none, ⟨GoDate.negInfinity, true⟩)) ∧
    (∀ v dst, nullDateDecodeResult (nullDateEncodeParam ⟨v, false⟩ (some [])).1 dst =
      (none, ⟨goDateZero, false⟩)) := by
  refine ⟨string_round,
    fun n dst h1 h2 => int16_round n h1 h2 dst,
    fun n dst h1 h2 => int32_round n h1 h2 dst,
    fun n dst h1 h2 => int64_round n h1 h2 dst,
    fun bits dst h => float32_round bits h dst,
    fun bits dst h => float64_round bits h dst,
    bool_round,
    fun d dst h1 h2 => date_round d h1 h2 dst,
    ⟨rfl, rfl⟩, ⟨rfl, rfl⟩,
    nullString_round_valid, fun s dst => rfl,
    fun v dst h1 h2 => nullInt16_round_valid v h1 h2 dst, fun v dst => rfl,
    fun v dst h1 h2 => nullInt32_round_valid v h1 h2 dst, fun v dst => rfl,
    fun v dst h1 h2 => nullInt64_round_valid v h1 h2 dst, fun v dst => rfl,
    fun bits dst h => nullFloat32_round_valid bits h dst, fun bits dst => rfl,
    fun bits dst h => nullFloat64_round_valid bits h dst, fun bits dst => rfl,
    nullBool_round_valid, fun b dst => rfl,
    fun d dst h1 h2 => nullDate_round_valid_finite d h1 h2 dst,
    fun dst => rfl, fun dst => rfl, fun v dst => rfl⟩

/-- C3 witness: the amended round-trip claim applied at concrete values of
each hypothesis-bearing conjunct. -/
theorem c3_codec_round_trip_amended_witness :
    notNullInt16DecodeResult (writeInt16 (some []) (-5)).1 0 = (none, -5) ∧
    notNullInt32DecodeResult (writeInt32 (some []) 100000).1 0 = (none, 100000) ∧
    notNullInt64DecodeResult (writeInt64 (some []) (-4900000000)).1 0 =
      (none, -4900000000) ∧
    notNullFloat32DecodeResult (writeFloat32 (some []) 1067282596).1 0 =
      (none, 1067282596) ∧
    notNullFloat64DecodeResult (writeFloat64 (some []) 4617315517961601024).1 0 =
      (none, 4617315517961601024) ∧
    dateDecodeResult (writeDate (some []) (GoDate.finite 7614)).1 goDateZero =
      (none, GoDate.finite 7614) ∧
    nullInt16DecodeResult (nullInt16EncodeParam ⟨42, true⟩ (some [])).1 ⟨0, false⟩ =
      (none, ⟨42, true⟩) ∧
    nullDateDecodeResult
      (nullDateEncodeParam ⟨GoDate.finite (-730119), true⟩ (some [])).1 ⟨goDateZero, false⟩ =
      (none, ⟨GoDate.finite (-730119), true⟩) := by
  obtain ⟨_, h16, h32, h64, hf32, hf64, _, hdate, _, _, _, _, hn16, _, _, _, _, _, _, _, _, _,
    _, _, hnd, _⟩ := c3_codec_round_trip_amended
  exact ⟨h16 (-5) 0 (by norm_num) (by norm_num),
    h32 100000 0 (by norm_num) (by norm_num),
    h64 (-4900000000) 0 (by norm_num) (by norm_num),
    hf32 1067282596 0 (by norm_num),
    hf64 4617315517961601024 0 (by norm_num),
    hdate 7614 goDateZero (by norm_num) (by norm_num),
    hn16 42 ⟨0, false⟩ (by norm_num) (by norm_num),
    hnd (-730119) ⟨goDateZero, false⟩ (by norm_num) (by norm_num)⟩

/-! ## Query loop lemmas -/

theorem queryLoop_count_of_none {σ : Type} (ds : List (ResDecoder σ)) (f : RowFn σ)
    (rows : List (List GoBytes)) (s : σ) (n : Nat)
    (h : (queryLoop ds f rows s n).2.1 = none) :
    (queryLoop ds f rows s n).1 = n + rows.length := by
  induction rows generalizing s n with
  | nil => simp [queryLoop]
  | cons r rs ih =>
    simp only [queryLoop] at h ⊢
    cases hstep : rowStep ds f r s with
    | mk e s' =>
      cases e with
      | none =>
        simp only [hstep] at h ⊢
        rw [ih s' (n + 1) h]
        simp only [List.length_cons]
        omega
      | some e0 =>
        simp only [hstep] at h
        simp at h

theorem queryLoop_append {σ : Type} (ds : List (ResDecoder σ)) (f : RowFn σ)
    (pre rest : List (List GoBytes)) (s : σ) (n : Nat) :
    queryLoop ds f (pre ++ rest) s n =
      match queryLoop ds f pre s n with
      | (n', none, s') => queryLoop ds f rest s' n'
      | (n', some e, s') => (n', some e, s') := by
  induction pre generalizing s n with
  | nil => simp [queryLoop]
  | cons r rs ih =>
    simp only [List.cons_append, queryLoop]
    cases hstep : rowStep ds f r s with
    | mk e s' =>
      cases e with
      | none =>
        simp only [hstep]
        exact ih s' (n + 1)
      | some e0 => simp only [hstep]

/-! ## Claim C4: Query row iteration -/

/-- C4: Query iterates the wire result row by row; for each row it
increments the row count, invokes the column decoders in order and then the
row callback; on the first decoder or callback error it stops immediately
and returns the row count seen so far with that error while the wire result
is still closed; when every row succeeds it returns the total row count
together with the final Close error, or nil on success. The hypothesis that
every wire row carries one value per decoder is the wire-protocol invariant
under which the embedding is faithful (Go would panic otherwise). -/
theorem c4_query_row_iteration {σ : Type} (env : QueryEnv σ) (s0 : σ)
    (hprep : env.prepErr = none)
    (hlen : ∀ r ∈ env.rows, r.length = env.decoders.length) :
    (connQuery env s0).closed = true ∧
    ((queryLoop env.decoders env.rowFn env.rows s0 0).2.1 = none →
      (connQuery env s0).count = env.rows.length ∧
      (connQuery env s0).err = env.closeErr) ∧
    (∀ pre r post e s1,
      env.rows = pre ++ r :: post →
      queryLoop env.decoders env.rowFn pre s0 0 = (pre.length, none, s1) →
      (rowStep env.decoders env.rowFn r s1).1 = some e →
      (connQuery env s0).count = pre.length + 1 ∧
      (connQuery env s0).err = some e ∧
      (connQuery env s0).closed = true) := by
  refine ⟨?_, ?_, ?_⟩
  · simp only [connQuery, hprep]
    rcases hq : queryLoop env.decoders env.rowFn env.rows s0 0 with ⟨n, e, s⟩
    cases e with
    | none => cases env.closeErr <;> rfl
    | some e0 => rfl
  · intro hnone
    have hcount := queryLoop_count_of_none env.decoders env.rowFn env.rows s0 0 hnone
    simp only [connQuery, hprep]
    rcases hq : queryLoop env.decoders env.rowFn env.rows s0 0 with ⟨n, e, s⟩
    rw [hq] at hnone hcount
    simp only at hnone hcount
    subst hnone
    cases env.closeErr <;> simpa using hcount
  · intro pre r post e s1 hrows hpre hfail
    have hsplit := queryLoop_append env.decoders env.rowFn pre (r :: post) s0 0
    rw [← hrows] at hsplit
    rcases hstep : rowStep env.decoders env.rowFn r s1 with ⟨e', s2⟩
    rw [hstep] at hfail
    simp only at hfail
    subst hfail
    rw [hpre] at hsplit
    simp only [queryLoop, hstep] at hsplit
    simp only [connQuery, hprep, hsplit]
    exact ⟨trivial, trivial, trivial⟩

/-- C4 witness: the claim applied to a concrete two-row query that succeeds
and to a concrete query whose only decoder fails on the first row. -/
theorem c4_query_row_iteration_witness :
    (connQuery (⟨none, [[some [1]], [some [2]]], [fun s v => (none, s + goLen v)],
        fun s => (none, s), none, 0, 0⟩ : QueryEnv Nat) 0).count = 2 ∧
    (connQuery (⟨none, [[some [1]], [some [2]]], [fun s v => (none, s + goLen v)],
        fun s => (none, s), none, 0, 0⟩ : QueryEnv Nat) 0).err = none ∧
    (connQuery (⟨none, [[some [3]]], [fun s _ => (some (Err.user 1), s)],
        fun s => (none, s), none, 0, 0⟩ : QueryEnv Nat) 0).count = 1 ∧
    (connQuery (⟨none, [[some [3]]], [fun s _ => (some (Err.user 1), s)],
        fun s => (none, s), none, 0, 0⟩ : QueryEnv Nat) 0).err = some (Err.user 1) := by
  have hok := c4_query_row_iteration
    (⟨none, [[some [1]], [some [2]]], [fun s v => (none, s + goLen v)],
      fun s => (none, s), none, 0, 0⟩ : QueryEnv Nat) 0 rfl
    (by intro r hr; simp at hr; rcases hr with h | h <;> simp [h])
  have hfail := c4_query_row_iteration
    (⟨none, [[some [3]]], [fun s _ => (some (Err.user 1), s)],
      fun s => (none, s), none, 0, 0⟩ : QueryEnv Nat) 0 rfl
    (by intro r hr; simp at hr; simp [hr])
  have h1 := hok.2.1 rfl
  have h2 := hfail.2.2 [] [some [3]] [] (Err.user 1) 0 rfl rfl rfl
  exact ⟨h1.1, h1.2, h2.1, h2.2.1⟩

/-! ## Claim C10: releasing the oversized parameter buffer -/

/-- C10 counterexample: a Query that fails in a decoder with an oversized
scratch buffer (length 0, capacity 2000, so the claimed release condition
0 + 512 < 2000 / 2 holds) returns without releasing the buffer, because
`releaseOversizedParamValuesBuf` sits after the error returns. -/
theorem c10_error_path_keeps_oversized_buf :
    (connQuery (⟨none, [[none]], [fun s _ => (some (Err.msg ("boom")), s)],
        fun s => (none, s), none, 0, 2000⟩ : QueryEnv Nat) 0).err =
      some (Err.msg ("boom")) ∧
    (0 : Nat) + 512 < 2000 / 2 ∧
    (connQuery (⟨none, [[none]], [fun s _ => (some (Err.msg ("boom")), s)],
        fun s => (none, s), none, 0, 2000⟩ : QueryEnv Nat) 0).bufReleased = false := by
  exact ⟨rfl, by norm_num, rfl⟩

/-- C10 amended: after a Query or Exec call, `paramValuesBuf` has been
released exactly when the call returned without error and
`len(paramValuesBuf) + 512 < cap(paramValuesBuf) / 2`; calls that return an
error leave the buffer in place. -/
theorem c10_buf_release_only_on_success {σ : Type} (env : QueryEnv σ) (s0 : σ)
    (eenv : ExecEnv) :
    ((connQuery env s0).bufReleased =
      ((connQuery env s0).err.isNone && decide (env.bufLen + 512 < env.bufCap / 2))) ∧
    ((connExec eenv).bufReleased =
      ((connExec eenv).err.isNone && decide (eenv.bufLen + 512 < eenv.bufCap / 2))) := by
  constructor
  · rcases hp : env.prepErr with _ | e
    · simp only [connQuery, hp]
      rcases hq : queryLoop env.decoders env.rowFn env.rows s0 0 with ⟨n, e, s⟩
      cases e with
      | none => cases env.closeErr <;> simp
      | some e0 => simp
    · simp [connQuery, hp]
  · rcases hp : eenv.prepErr with _ | e
    · rcases hc : eenv.closeErr with _ | e
      · simp [connExec, hp, hc]
      · simp [connExec, hp, hc]
    · simp [connExec, hp]

/-- C10 amended witness: the amended claim at the failing concrete query
from the counterexample environment's shape and at a successful Exec whose
buffer is oversized and is indeed released. -/
theorem c10_buf_release_only_on_success_witness :
    (connQuery (⟨none, [], [], fun s => (none, s), none, 0, 2000⟩ : QueryEnv Nat) 0).bufReleased
      = true ∧
    (connExec ⟨none, some (Err.wire 3), 0, 0, 2000⟩).bufReleased = false := by
  have h1 := c10_buf_release_only_on_success
    (⟨none, [], [], fun s => (none, s), none, 0, 2000⟩ : QueryEnv Nat) 0
    ⟨none, some (Err.wire 3), 0, 0, 2000⟩
  exact ⟨by rw [h1.1]; rfl, by rw [h1.2]; rfl⟩

/-! ## Claim C6: pool release classification -/

theorem releaseConnAction_iff (c b : Bool) (tx : Nat) (age life : Int) :
    (releaseConnAction c b tx age life = ReleaseAction.destroy ↔
      (c = true ∨ b = true ∨ tx ≠ 73 ∨ age > life)) ∧
    (releaseConnAction c b tx age life = ReleaseAction.release ↔
      (c = false ∧ b = false ∧ tx = 73 ∧ age ≤ life)) := by
  cases c <;> cases b <;>
    by_cases htx : tx = 73 <;>
    by_cases hage : age > life <;>
    simp [releaseConnAction, htx, hage] <;>
    omega

/-- C6: on every exit of the pool's acquire callback the released
connection is destroyed if and only if the wire session is closed, is
reported busy, its transaction status is not I, or its age exceeds
MaxConnLifetime; in every other case it is returned to the pool. -/
theorem c6_release_classification (env : AcquireEnv) (h : env.acquireErr = none) :
    ((poolAcquire env).released = some ReleaseAction.destroy ↔
      (env.isClosed = true ∨ env.isBusy = true ∨ env.txStatus ≠ 73 ∨
        env.age > env.maxConnLifetime)) ∧
    ((poolAcquire env).released = some ReleaseAction.release ↔
      (env.isClosed = false ∧ env.isBusy = false ∧ env.txStatus = 73 ∧
        env.age ≤ env.maxConnLifetime)) := by
  rcases env with ⟨ae, fe, c, b, tx, age, life⟩
  simp only at h
  subst h
  simpa [poolAcquire, Option.some.injEq] using releaseConnAction_iff c b tx age life

/-- C6 witness: the classification applied at a concrete environment whose
connection is in transaction status T (not I), which is destroyed, and at a
healthy one, which is returned to the pool. -/
theorem c6_release_classification_witness :
    (poolAcquire ⟨none, none, false, false, 84, 0, 100⟩).released =
      some ReleaseAction.destroy ∧
    (poolAcquire ⟨none, none, false, false, 73, 50, 100⟩).released =
      some ReleaseAction.release := by
  have h1 := c6_release_classification ⟨none, none, false, false, 84, 0, 100⟩ rfl
  have h2 := c6_release_classification ⟨none, none, false, false, 73, 50, 100⟩ rfl
  exact ⟨h1.1.mpr (Or.inr (Or.inr (Or.inl (by norm_num)))),
    h2.2.mpr ⟨rfl, rfl, rfl, by norm_num⟩⟩

/-! ## Claim C7: decoder error behaviour -/

theorem string_characterization : StringDecoderCharacterization := by
  unfold StringDecoderCharacterization
  intro buf dst
  cases buf with
  | none => simp [notNullStringDecodeResult]
  | some l => simp [notNullStringDecodeResult, readNotNullString]

theorem int16_characterization :
    FixedWidthCharacterization 2 ("int16") notNullInt16DecodeResult := by
  unfold FixedWidthCharacterization
  intro buf dst
  cases buf with
  | none => simp [notNullInt16DecodeResult]
  | some l =>
    by_cases h : l.length = 2 <;>
      simp [notNullInt16DecodeResult, readNotNullInt16, h]

theorem int32_characterization :
    FixedWidthCharacterization 4 ("int32") notNullInt32DecodeResult := by
  unfold FixedWidthCharacterization
  intro buf dst
  cases buf with
  | none => simp [notNullInt32DecodeResult]
  | some l =>
    by_cases h : l.length = 4 <;>
      simp [notNullInt32DecodeResult, readNotNullInt32, h]

theorem int64_characterization :
    FixedWidthCharacterization 8 ("int64") notNullInt64DecodeResult := by
  unfold FixedWidthCharacterization
  intro buf dst
  cases buf with
  | none => simp [notNullInt64DecodeResult]
  | some l =>
    by_cases h : l.length = 8 <;>
      simp [notNullInt64DecodeResult, readNotNullInt64, h]

theorem float32_characterization :
    FixedWidthCharacterization 4 ("float32") notNullFloat32DecodeResult := by
  unfold FixedWidthCharacterization
  intro buf dst
  cases buf with
  | none => simp [notNullFloat32DecodeResult]
  | some l =>
    by_cases h : l.length = 4 <;>
      simp [notNullFloat32DecodeResult, readNotNullFloat32, h]

theorem float64_characterization :
    FixedWidthCharacterization 8 ("float64") notNullFloat64DecodeResult := by
  unfold FixedWidthCharacterization
  intro buf dst
  cases buf with
  | none => simp [notNullFloat64DecodeResult]
  | some l =>
    by_cases h : l.length = 8 <;>
      simp [notNullFloat64DecodeResult, readNotNullFloat64, h]

theorem bool_characterization :
    FixedWidthCharacterization 1 ("bool") notNullBoolDecodeResult := by
  unfold FixedWidthCharacterization
  intro buf dst
  cases buf with
  | none => simp [notNullBoolDecodeResult]
  | some l =>
    by_cases h : l.length = 1 <;>
      simp [notNullBoolDecodeResult, readNotNullBool, h]

theorem date_characterization :
    FixedWidthCharacterization 4 ("time.Time") dateDecodeResult := by
  unfold FixedWidthCharacterization
  intro buf dst
  cases buf with
  | none => simp [dateDecodeResult]
  | some l =>
    by_cases h : l.length = 4 <;>
      simp [dateDecodeResult, readNotNullDate, h] <;>
      split_ifs <;> simp

/-- C7: every builtin non-nullable decoder's DecodeResult errs exactly when
its payload is NULL (with the fixed "NULL cannot be converted to T" message)
or, for the fixed-width types, when the non-NULL payload's length differs
from the fixed width (2 for int16, 4 for int32, float32 and date, 8 for
int64 and float64, 1 for bool; strings have no width constraint); every
error leaves the destination unchanged and every other payload decodes
successfully; the NullT wrapper decoders accept a NULL payload by setting
Valid to false and returning success. -/
theorem c7_decoder_error_characterization :
    StringDecoderCharacterization ∧
    FixedWidthCharacterization 2 ("int16") notNullInt16DecodeResult ∧
    FixedWidthCharacterization 4 ("int32") notNullInt32DecodeResult ∧
    FixedWidthCharacterization 8 ("int64") notNullInt64DecodeResult ∧
    FixedWidthCharacterization 4 ("float32") notNullFloat32DecodeResult ∧
    FixedWidthCharacterization 8 ("float64") notNullFloat64DecodeResult ∧
    FixedWidthCharacterization 1 ("bool") notNullBoolDecodeResult ∧
    FixedWidthCharacterization 4 ("time.Time") dateDecodeResult ∧
    (∀ dst, nullStringDecodeResult none dst = (none, ⟨[], false⟩)) ∧
    (∀ dst, nullInt16DecodeResult none dst = (none, ⟨0, false⟩)) ∧
    (∀ dst, nullInt32DecodeResult none dst = (none, ⟨0, false⟩)) ∧
    (∀ dst, nullInt64DecodeResult none dst = (none, ⟨0, false⟩)) ∧
    (∀ dst, nullFloat32DecodeResult none dst = (none, ⟨0, false⟩)) ∧
    (∀ dst, nullFloat64DecodeResult none dst = (none, ⟨0, false⟩)) ∧
    (∀ dst, nullBoolDecodeResult none dst = (none, ⟨false, false⟩)) ∧
    (∀ dst, nullDateDecodeResult none dst = (none, ⟨goDateZero, false⟩)) :=
  ⟨string_characterization, int16_characterization, int32_characterization,
    int64_characterization, float32_characterization, float64_characterization,
    bool_characterization, date_characterization,
    fun dst => rfl, fun dst => rfl, fun dst => rfl, fun dst => rfl,
    fun dst => rfl, fun dst => rfl, fun dst => rfl, fun dst => rfl⟩

/-- C7 witness: the characterisation applied at concrete payloads — a NULL
payload for int16 produces the fixed message, and a 3-byte int16 payload
errs while leaving the destination value 7 unchanged. -/
theorem c7_decoder_error_characterization_witness :
    (notNullInt16DecodeResult none 7).1 = some ("NULL cannot be converted to int16") ∧
    (notNullInt16DecodeResult (some [1, 2, 3]) 7).1 ≠ none ∧
    (notNullInt16DecodeResult (some [1, 2, 3]) 7).2 = 7 := by
  obtain ⟨_, h16, _⟩ := c7_decoder_error_characterization
  refine ⟨(h16 none 7).2.1 rfl, ?_, ?_⟩
  · intro hx
    obtain ⟨l, hl, hlen⟩ := (h16 (some [1, 2, 3]) 7).1.mp hx
    simp at hl
    subst hl
    simp at hlen
  · refine (h16 (some [1, 2, 3]) 7).2.2 ?_
    intro hx
    obtain ⟨l, hl, hlen⟩ := (h16 (some [1, 2, 3]) 7).1.mp hx
    simp at hl
    subst hl
    simp at hlen

/-! ## Claim C1: parameter value recording -/

/-- C1: evaluation of `prepareParams` at the failing input. The empty-string
argument's encoder appends zero bytes, so with a nil shared buffer (the
state of a fresh Conn, or of any Conn after the oversized-buffer release)
`writeString` returns nil and the loop records `paramValues[0] = nil` — the
NULL marker — although the claim (and the spec's type table) require the
empty string to be recorded as its raw UTF-8 bytes, a zero-length non-nil
payload. With a non-nil buffer the same argument is recorded correctly,
confirming that the nil check conflates "encoder returned NULL" with
"buffer still nil and nothing appended". -/
theorem c1_empty_string_param_is_null_marker :
    encAppended (GoParam.pstr []) = some [] ∧
    prepareParamsLoop [GoParam.pstr []] none = ([none], [0], [0], none) ∧
    prepareParamsLoop [GoParam.pstr []] (some []) = ([some []], [0], [0], some []) :=
  ⟨rfl, rfl, rfl⟩

/-! ## Claim C5: scratch array sizing -/

/-- C5: evaluation of the sizing logic at the failing input. With scratch
arrays of capacity 100 and a 3-argument call whose `args` slice has
capacity 3, the claim's condition (current capacity 100 exceeds
max(3*2, 32) = 32) demands reallocation, but the code compares the
threshold against `cap(args)` and keeps the oversized arrays; conversely a
3-argument call whose caller slice has capacity 100 makes the code
reallocate although the scratch capacity 32 satisfies the claim's policy.
`prepareResults` behaves the same way with threshold 64 against
`cap(results)`. -/
theorem c5_scratch_sizing_checks_caller_capacity :
    prepareParamsSizing 100 3 3 = (false, 100) ∧
    max (3 * 2) 32 < 100 ∧
    prepareParamsSizing 32 3 100 = (true, 32) ∧
    ¬ (32 < 3 ∨ max (3 * 2) 32 < 32) ∧
    prepareResultsSizing 200 3 3 = (false, 200) ∧
    max (3 * 2) 64 < 200 := by
  refine ⟨rfl, by norm_num, rfl, by norm_num, rfl, by norm_num⟩

/-! ## Claim C9: pool_min_conns validation -/

/-- C9: evaluation of `ParsePoolConfig` at the failing input. A connection
string carrying `pool_min_conns=-1` parses successfully and stores
`MinConns = -1`, although the claim (and the function's own documentation,
"integer 0 or greater") requires an error; by contrast `pool_max_conns=0`
and `pool_max_conns=-2` are rejected as too small, confirming the first
half of the claim. -/
theorem c9_min_conns_not_validated :
    parsePoolConfig 1 (fun _ => Except.error ()) ⟨none, some ("-1"), none, none, none⟩ =
      Except.ok ⟨4, -1, 3600000000000, 300000000000, 60000000000⟩ ∧
    parsePoolConfig 1 (fun _ => Except.error ()) ⟨some ("0"), none, none, none, none⟩ =
      Except.error (ConfigErr.maxConnsTooSmall 0) ∧
    parsePoolConfig 1 (fun _ => Except.error ()) ⟨some ("-2"), none, none, none, none⟩ =
      Except.error (ConfigErr.maxConnsTooSmall (-2)) :=
  ⟨rfl, rfl, rfl⟩

end Goldilocks
